import Mathlib

/-!
Shallow embedding of the core Atom/Property access layer of `ewmh_client.py`
(MestreLion/ewmh-client).

The X server connection is modelled as an explicit state (`XDisplay`): an
intern table from atom names to numeric ids, the reverse table from ids to
names, and the properties stored on each window.  Python object identity
(`is`) of a display or of the root `EWMH` object is modelled by an identity
token (`did`, `rootId`): two objects are `is`-identical exactly when their
tokens coincide.

Every operation that talks to the server returns, next to its
`Except PyError` result, the list of protocol requests it issued
(`List Request`), so that "no network request is sent" and "the lookup is
performed at construction time" become statements about that list.
-/

namespace Ewmh

/-- Payload of a property: `bytes` when the format is 8, otherwise an
`array.array` of unsigned integers (python-xlib behaviour). -/
inductive PropValue where
  | bytes (bs : List Nat)
  | ints (xs : List Nat)
deriving DecidableEq

/-- Python `isinstance(data, bytes)`. -/
def PropValue.isBytes : PropValue → Bool
  | .bytes _ => true
  | .ints _ => false

/-- One property as stored on a window by the X server: its type atom,
its format (8/16/32) and its data. -/
structure WinProp where
  ptype : Nat
  format : Nat
  value : PropValue
deriving DecidableEq

/-- State of one X display connection.  `did` is the identity token used to
model Python `is` on display objects.  `nextAtomId` models the id the server
would assign to the next freshly interned atom. -/
structure XDisplay where
  did : Nat
  atoms : List (String × Nat)
  atomNames : List (Nat × String)
  winProps : List (Nat × List (Nat × WinProp))
deriving DecidableEq

/-- Server-side intern table lookup: name to id. -/
def lookupAtom (d : XDisplay) (s : String) : Option Nat :=
  (d.atoms.find? (fun p => p.1 == s)).map (fun p => p.2)

/-- Server-side reverse lookup: id to name. -/
def lookupName (d : XDisplay) (n : Nat) : Option String :=
  (d.atomNames.find? (fun p => p.1 == n)).map (fun p => p.2)

/-- The property stored under atom `atomId` on window `wid`, if any. -/
def lookupProp (d : XDisplay) (wid atomId : Nat) : Option WinProp :=
  match d.winProps.find? (fun p => p.1 == wid) with
  | none => none
  | some pr => ((pr.2).find? (fun p => p.1 == atomId)).map (fun p => p.2)

/-- `Xlib.display.Display.get_atom(name, only_if_exists)`: returns the atom
id, or `Xlib.X.NONE` (0) when the name is not interned and
`only_if_exists` is true.  The claims never intern a new atom, so the
`only_if_exists=False` branch is modelled as returning 0 as well only when
the name is unknown and creation is requested nowhere; creation is not
reachable from the verified call sites (all of them pass `create=False`). -/
def getAtom (d : XDisplay) (s : String) (onlyIfExists : Bool) : Nat :=
  match lookupAtom d s with
  | some v => v
  | none => if onlyIfExists then 0 else 0

/-- Protocol requests issued to the server, logged in call order. -/
inductive Request where
  | internAtom (name : String)
  | getAtomName (atomId : Nat)
  | getProperty (windowId atomId typeAtom : Nat)
  | changeProperty (windowId propAtom typeAtom fmtBits : Nat)
      (data : PropValue) (modeVal : Nat)
  | sendEvent (targetWindow eventWindow clientType : Nat) (data : List Int)
      (mask : Nat) (propagate : Bool)
  | flush
deriving DecidableEq

/-- `Format(enum.IntEnum)`: item bit size of a property value sequence. -/
inductive Format where
  | CHAR
  | SHORT
  | INT
deriving DecidableEq

/-- Numeric value of a `Format` member. -/
def Format.toNat : Format → Nat
  | .CHAR => 8
  | .SHORT => 16
  | .INT => 32

/-- `Format(x)`: enum construction, `none` models the `ValueError` Python
raises when `x` is not one of 8/16/32. -/
def Format.ofValue : Nat → Option Format
  | 8 => some .CHAR
  | 16 => some .SHORT
  | 32 => some .INT
  | _ => none

/-- `Mode(enum.IntEnum)`: mode when setting a property. -/
inductive Mode where
  | REPLACE
  | PREPEND
  | APPEND
deriving DecidableEq

/-- Numeric value of a `Mode` member (`Xlib.X.PropertyModeReplace` is 0,
prepend 1, append 2). -/
def Mode.toNat : Mode → Nat
  | .REPLACE => 0
  | .PREPEND => 1
  | .APPEND => 2

/-- `Atom(int)`: a named integer.  `displayId` is the identity token of the
owning display (`self._display`), `name` is the `_name` slot. -/
structure Atom where
  value : Nat
  displayId : Nat
  name : String
deriving DecidableEq

/-- Type slot of a `Property`: the missing-property branch stores the plain
int `Xlib.X.NONE`, the normal branch stores an `Atom` instance. -/
inductive PropType where
  | xatom (n : Nat)
  | atom (a : Atom)
deriving DecidableEq

/-- Numeric value of the type slot (an `Atom` is an `int` subclass, so all
numeric comparisons in the source use this value). -/
def PropType.toNat : PropType → Nat
  | .xatom n => n
  | .atom a => a.value

/-- `Property(t.NamedTuple)`: an immutable snapshot of one property read. -/
structure Property where
  name : String
  handle : Nat
  type : PropType
  format : Nat
  value : PropValue
deriving DecidableEq

/-- Argument passed to `EwmhError`, kept structured instead of rendered to
text so that theorems can speak about what an error reports. -/
inductive ErrArg where
  | nat (n : Nat)
  | str (s : String)
  | fmt (f : Format)
  | atom (a : Atom)
  | prop (p : Property)
  | atomList (l : List Atom)
  | intList (l : List Int)
deriving DecidableEq

/-- Errors that can surface from the layer: `ewmh` is a successfully
constructed `EwmhError`; `valueError` / `typeError` are Python errors raised
while `EwmhError.__init__` interpolates `str(msg) % args`; `xerror` is an
X protocol error from python-xlib (e.g. BadAtom); `unicodeError` is a codec
failure. -/
inductive PyError where
  | ewmh (fmtStr : String) (args : List ErrArg)
  | valueError (msg : String)
  | typeError (msg : String)
  | xerror (msg : String)
  | unicodeError (enc : String)
deriving DecidableEq

/-- Scan a %-format string: `some n` when it is valid and consumes `n`
arguments, `none` when it contains an invalid conversion character (Python
raises `ValueError`).  Only the `%r`, `%s` and `%%` forms occurring in this
module are treated as valid, which matches every format string in the
source. -/
def countSpecs : List Char → Option Nat
  | [] => some 0
  | '%' :: 'r' :: rest => (countSpecs rest).map (fun n => n + 1)
  | '%' :: 's' :: rest => (countSpecs rest).map (fun n => n + 1)
  | '%' :: '%' :: rest => countSpecs rest
  | '%' :: _ :: _ => none
  | ['%'] => none
  | _ :: rest => countSpecs rest

/-- `EwmhError.__init__`: `super().__init__((str(msg) % args) if args else
msg)`.  With no args the message is stored verbatim; with args the
interpolation runs at construction time and can itself raise `ValueError`
(bad conversion character) or `TypeError` (argument count mismatch). -/
def mkEwmhError (fmtStr : String) (args : List ErrArg) : PyError :=
  if args.isEmpty then .ewmh fmtStr []
  else
    match countSpecs fmtStr.data with
    | none => .valueError fmtStr
    | some n => if n = args.length then .ewmh fmtStr args else .typeError fmtStr

/-- `AtomLike = t.Union[Atom, int, str]`. -/
inductive AtomLike where
  | atom (a : Atom)
  | int (n : Nat)
  | str (s : String)
deriving DecidableEq

/-- Python `str(...)` of an `AtomLike` (for an `Atom`, `__str__` returns the
cached name). -/
def AtomLike.toStr : AtomLike → String
  | .atom a => a.name
  | .int n => toString n
  | .str s => s

/-- `Atom.__new__(cls, value, display, create=False)`.  An existing `Atom`
is returned unchanged.  A string is interned (`only_if_exists=not create`);
the null atom raises `EwmhError("Atom does not exist: %s", value)` where
`value` is the (reassigned, hence 0) lookup result.  An int performs the
reverse name lookup `display.get_atom_name(value)` right away; python-xlib
raises an X error (BadAtom) when the id names no atom. -/
def Atom.new (value : AtomLike) (d : XDisplay) (create : Bool) :
    Except PyError Atom × List Request :=
  match value with
  | .atom a => (.ok a, [])
  | .str s =>
      let v := getAtom d s (!create)
      if v == 0 then
        (.error (mkEwmhError "Atom does not exist: %s" [.nat v]), [.internAtom s])
      else
        (.ok ⟨v, d.did, s⟩, [.internAtom s])
  | .int n =>
      match lookupName d n with
      | some s => (.ok ⟨n, d.did, s⟩, [.getAtomName n])
      | none => (.error (.xerror "BadAtom"), [.getAtomName n])

/-- The `Atom.name` property: returns the cached `_name` and only queries
`display.get_atom_name(self)` when the cached name is the empty string. -/
def Atom.nameProp (a : Atom) (d : XDisplay) :
    Except PyError String × List Request :=
  if a.name == "" then
    match lookupName d a.value with
    | some s => (.ok s, [.getAtomName a.value])
    | none => (.error (.xerror "BadAtom"), [.getAtomName a.value])
  else
    (.ok a.name, [])

/-- `Atom.__eq__` against another `Atom`: numeric equality of the int value
and identity (`is`) of the owning displays. -/
def Atom.eqAtom (a b : Atom) : Bool :=
  a.value == b.value && a.displayId == b.displayId

/-- `Atom.__eq__` against a plain `int`: numeric comparison only. -/
def Atom.eqInt (a : Atom) (n : Nat) : Bool :=
  a.value == n

/-- `Atom.__eq__` against a `str`: `other == self.name`, where `self.name`
is the (possibly refetching) name property. -/
def Atom.eqStr (a : Atom) (d : XDisplay) (s : String) :
    Except PyError Bool × List Request :=
  match a.nameProp d with
  | (.ok n, l) => (.ok (s == n), l)
  | (.error e, l) => (.error e, l)

example : Atom.new (.str "FOO") ⟨1, [("FOO", 5)], [(5, "FOO")], []⟩ false
    = (.ok ⟨5, 1, "FOO"⟩, [.internAtom "FOO"]) := rfl

/-- The root `EWMH` object as seen by `Window.__init__`: its identity token
(`rootId`, modelling Python `is` on the root object), the display it is
connected to, and the data `Window.__init__` copies from it. -/
structure RootCtx where
  rootId : Nat
  display : XDisplay
  screenNumber : Nat
  displayName : String
  rootHandle : Nat
deriving DecidableEq

/-- A `Window` instance after `__init__` ran: the copied context slots plus
the `UTF8_STRING` atom resolved eagerly by the constructor (used as the
second key of the `ENCODINGS` dict). -/
structure Window where
  handleId : Nat
  rootId : Nat
  rootHandle : Nat
  displayId : Nat
  screenNumber : Nat
  displayName : String
  utf8Atom : Nat
deriving DecidableEq

/-- `Window.__init__(window_id, root)` for a non-root window: copies the
context from `root`, creates the window resource object with the given id,
and resolves the `UTF8_STRING` atom (the only server interaction). -/
def Window.init (windowId : Nat) (root : RootCtx) :
    Except PyError Window × List Request :=
  match Atom.new (.str "UTF8_STRING") root.display false with
  | (.error e, l) => (.error e, l)
  | (.ok u, l) =>
      (.ok ⟨windowId, root.rootId, root.rootHandle, root.display.did,
            root.screenNumber, root.displayName, u.value⟩, l)

/-- `Window.__eq__`: same resource id and identical (`is`) root object. -/
def Window.eq (a b : Window) : Bool :=
  a.handleId == b.handleId && a.rootId == b.rootId

/-- The `__hash__` slot of `Window`.  The class overrides `__eq__` without
defining `__hash__`, so Python sets `__hash__` to `None`: `Window`
instances are unhashable (`hash(w)` raises `TypeError`).  `none` models the
absent hash implementation. -/
def Window.hashMethod : Option (Window → Nat) := none

/-- The `ENCODINGS` dict built by `Window.__init__`:
`{Xlib.Xatom.STRING: "latin-1", self.UTF8_STRING: "utf-8"}`.
`Xlib.Xatom.STRING` is the predefined atom 31.  Lookup checks the
`UTF8_STRING` key first because a later duplicate key would win in a
Python dict literal. -/
def Window.encodingsGet (w : Window) (k : Nat) : Option String :=
  if k == w.utf8Atom then some "utf-8"
  else if k == 31 then some "latin-1"
  else none

/-- Membership test `type_atom not in self.ENCODINGS` (dict key lookup uses
the numeric value, since `Atom.__hash__` and `Atom.__eq__` against ints are
numeric). -/
def Window.encodingsContains (w : Window) (k : Nat) : Bool :=
  k == w.utf8Atom || k == 31

/-- Empty payload as parsed by python-xlib for a given format: `bytes` when
the format is 8, an empty integer array otherwise. -/
def emptyValue (format : Nat) : PropValue :=
  if format == 8 then .bytes [] else .ints []

/-- Byte length of a stored property's data, as reported in the reply's
`bytes-after` field when the requested type mismatches. -/
def byteLength (format : Nat) (v : PropValue) : Nat :=
  match v with
  | .bytes bs => bs.length
  | .ints xs => xs.length * (format / 8)

/-- Reply of `XWindow.get_full_property` (python-xlib), which loops until
the whole value is fetched, so a successful same-type read always comes
back complete (`bytes_after = 0`).  X server `GetProperty` semantics:
a missing property replies with the null type, which python-xlib turns
into `None`; an existing property read with a concrete non-matching type
replies with the actual type and format, an empty value, and the data's
byte length in `bytes-after`. -/
structure XProp where
  property_type : Nat
  format : Nat
  value : PropValue
  bytes_after : Nat
deriving DecidableEq

/-- `self.handle.get_full_property(property, property_type, sizehint)`.
The size hint only tunes how many round trips the fetch takes; it never
changes the returned data, so it is ignored here. -/
def getFullProperty (d : XDisplay) (wid atomId ptype _sizehint : Nat) :
    Option XProp :=
  match lookupProp d wid atomId with
  | none => none
  | some wp =>
      if ptype != 0 && ptype != wp.ptype then
        some ⟨wp.ptype, wp.format, emptyValue wp.format,
              byteLength wp.format wp.value⟩
      else
        some ⟨wp.ptype, wp.format, wp.value, 0⟩

/-- `Window.get_property(name, expected_type=Xlib.X.AnyPropertyType,
size_hint=256)`.  `Xlib.X.AnyPropertyType` is 0 and `Xlib.X.NONE` is 0.
Mirrors the source line by line: resolve the name atom, fetch, return the
sentinel `Property` when the reply is `None`, otherwise build the
`Property` (type wrapped in an `Atom`, format validated through the
`Format` enum) and run the type-mismatch and completeness checks. -/
def Window.get_property (w : Window) (d : XDisplay) (name : AtomLike)
    (expected_type : Nat) (size_hint : Nat) :
    Except PyError Property × List Request :=
  match Atom.new name d false with
  | (.error e, l) => (.error e, l)
  | (.ok nameAtom, l1) =>
    let l2 := l1 ++ [.getProperty w.handleId nameAtom.value expected_type]
    match getFullProperty d w.handleId nameAtom.value expected_type size_hint with
    | none =>
        (.ok ⟨name.toStr, w.handleId, .xatom 0, 0, .bytes []⟩, l2)
    | some xp =>
      match Atom.new (.int xp.property_type) d false with
      | (.error e, l3) => (.error e, l2 ++ l3)
      | (.ok typeAtom, l3) =>
        match Format.ofValue xp.format with
        | none => (.error (.valueError "is not a valid Format"), l2 ++ l3)
        | some _ =>
          let prop : Property :=
            ⟨name.toStr, w.handleId, .atom typeAtom, xp.format, xp.value⟩
          if !(expected_type == 0 || expected_type == typeAtom.value) then
            match Atom.new (.int expected_type) d false with
            | (.error e, l4) => (.error e, l2 ++ l3 ++ l4)
            | (.ok expAtom, l4) =>
                (.error (mkEwmhError
                  "Property type mismatch, expected %s and got %s: %s"
                  [.atom expAtom, .atom typeAtom, .prop prop]),
                 l2 ++ l3 ++ l4)
          else if xp.bytes_after > 0 then
            (.error (mkEwmhError "Incomplete property, %s bytes left: %s"
              [.nat xp.bytes_after, .prop prop]), l2 ++ l3)
          else
            (.ok prop, l2 ++ l3)

/-- `Property.raise_on_missing`. -/
def Property.raise_on_missing (p : Property) : Except PyError Unit :=
  if p.type.toNat == 0 then
    .error (mkEwmhError "Property %r not found in %s" [.str p.name, .nat p.handle])
  else
    .ok ()

/-- `Window.set_property(name, data, property_type, data_format=Format.INT,
mode=Mode.REPLACE, onerror=None, immediate=True)`.  The bytes/format check
runs before anything touches the connection; afterwards the two atoms are
resolved, the change-property request is issued and, when `immediate`, the
connection is flushed. -/
def Window.set_property (w : Window) (d : XDisplay) (name : AtomLike)
    (data : PropValue) (property_type : AtomLike) (data_format : Format)
    (mode : Mode) (immediate : Bool) :
    Except PyError Unit × List Request :=
  if data.isBytes && data_format != Format.CHAR then
    (.error (mkEwmhError "Format mismatch for bytes data: expected %s, got %s"
      [.fmt .CHAR, .fmt data_format]), [])
  else
    match Atom.new name d false with
    | (.error e, l) => (.error e, l)
    | (.ok nameAtom, l1) =>
      match Atom.new property_type d false with
      | (.error e, l2) => (.error e, l1 ++ l2)
      | (.ok typeAtom, l2) =>
        let l3 := l1 ++ l2 ++
          [.changeProperty w.handleId nameAtom.value typeAtom.value
            data_format.toNat data mode.toNat]
        (.ok (), if immediate then l3 ++ [.flush] else l3)

/-- UTF-8 bytes of one character (code points never exceed 0x10FFFF and
exclude surrogates by construction of `Char`). -/
def utf8EncodeChar (c : Char) : List Nat :=
  let n := c.toNat
  if n < 0x80 then [n]
  else if n < 0x800 then [0xC0 + n / 0x40, 0x80 + n % 0x40]
  else if n < 0x10000 then
    [0xE0 + n / 0x1000, 0x80 + (n / 0x40) % 0x40, 0x80 + n % 0x40]
  else
    [0xF0 + n / 0x40000, 0x80 + (n / 0x1000) % 0x40,
     0x80 + (n / 0x40) % 0x40, 0x80 + n % 0x40]

/-- UTF-8 encoding of a string, as a byte list. -/
def utf8Encode (s : String) : List Nat :=
  s.data.foldr (fun c acc => utf8EncodeChar c ++ acc) []

/-- Is `b` a UTF-8 continuation byte. -/
def isCont (b : Nat) : Bool := 0x80 ≤ b && b < 0xC0

/-- Strict UTF-8 decoding with explicit fuel (always called with the list
length, which bounds the number of decoded characters). -/
def utf8DecodeAux : Nat → List Nat → Option (List Char)
  | _, [] => some []
  | 0, _ :: _ => none
  | fuel + 1, b :: rest =>
    if b < 0x80 then
      (utf8DecodeAux fuel rest).map (fun cs => Char.ofNat b :: cs)
    else if 0xC2 ≤ b && b ≤ 0xDF then
      match rest with
      | b2 :: r =>
          if isCont b2 then
            (utf8DecodeAux fuel r).map
              (fun cs => Char.ofNat ((b - 0xC0) * 0x40 + (b2 - 0x80)) :: cs)
          else none
      | [] => none
    else if 0xE0 ≤ b && b ≤ 0xEF then
      match rest with
      | b2 :: b3 :: r =>
          let cp := (b - 0xE0) * 0x1000 + (b2 - 0x80) * 0x40 + (b3 - 0x80)
          if isCont b2 && isCont b3 && 0x800 ≤ cp &&
              !(0xD800 ≤ cp && cp ≤ 0xDFFF) then
            (utf8DecodeAux fuel r).map (fun cs => Char.ofNat cp :: cs)
          else none
      | _ => none
    else if 0xF0 ≤ b && b ≤ 0xF4 then
      match rest with
      | b2 :: b3 :: b4 :: r =>
          let cp := (b - 0xF0) * 0x40000 + (b2 - 0x80) * 0x1000 +
            (b3 - 0x80) * 0x40 + (b4 - 0x80)
          if isCont b2 && isCont b3 && isCont b4 && 0x10000 ≤ cp &&
              cp ≤ 0x10FFFF then
            (utf8DecodeAux fuel r).map (fun cs => Char.ofNat cp :: cs)
          else none
      | _ => none
    else none

/-- Strict UTF-8 decoding of a byte list. -/
def utf8Decode (bs : List Nat) : Option (List Char) :=
  utf8DecodeAux bs.length bs

/-- Python `text.encode(encoding=enc, errors=errors)` for the encodings
reachable from this module ("utf-8" and "latin-1"); the non-strict error
policies are modelled for latin-1, the only encoding that can fail here. -/
def encodeText (text : String) (enc errors : String) :
    Except PyError (List Nat) :=
  if enc == "utf-8" then .ok (utf8Encode text)
  else if enc == "latin-1" then
    if text.data.all (fun c => c.toNat < 256) then
      .ok (text.data.map (fun c => c.toNat))
    else if errors == "ignore" then
      .ok ((text.data.filter (fun c => c.toNat < 256)).map (fun c => c.toNat))
    else if errors == "replace" then
      .ok (text.data.map (fun c => if c.toNat < 256 then c.toNat else 63))
    else .error (.unicodeError "latin-1")
  else .error (.xerror "unknown encoding")

/-- Python `bytes.decode(encoding=enc, errors=errors)` for the encodings
reachable from this module ("utf-8", "latin-1" and the "ascii" default);
for utf-8 only the default strict policy is modelled (every caller in the
repository uses the strict default). -/
def decodeText (bs : List Nat) (enc errors : String) :
    Except PyError String :=
  if enc == "utf-8" then
    match utf8Decode bs with
    | some cs => .ok ⟨cs⟩
    | none => .error (.unicodeError "utf-8")
  else if enc == "latin-1" then .ok ⟨bs.map Char.ofNat⟩
  else if enc == "ascii" then
    if bs.all (fun b => b < 128) then .ok ⟨bs.map Char.ofNat⟩
    else if errors == "ignore" then
      .ok ⟨(bs.filter (fun b => b < 128)).map Char.ofNat⟩
    else if errors == "replace" then
      .ok ⟨bs.map (fun b => if b < 128 then Char.ofNat b else Char.ofNat 0xFFFD)⟩
    else .error (.unicodeError "ascii")
  else .error (.xerror "unknown encoding")

/-- `Window.get_text_property(name, expected_type=AnyPropertyType,
encoding=None, decode_errors="strict")`.  The `text == b""` shortcut is
true in Python only when the payload is an empty byte string (an empty
`array.array` compares unequal to `b""`), so the `.ints` payloads always
fall through to the `isinstance(text, bytes)` check. -/
def Window.get_text_property (w : Window) (d : XDisplay) (name : AtomLike)
    (expected_type : Nat) (encoding : Option String) (decode_errors : String) :
    Except PyError String × List Request :=
  match Window.get_property w d name expected_type 256 with
  | (.error e, l) => (.error e, l)
  | (.ok prop, l) =>
    match prop.value with
    | .bytes [] => (.ok "", l)
    | .bytes bs =>
        let enc := match encoding with
          | none => (w.encodingsGet prop.type.toNat).getD "ascii"
          | some e => e
        match decodeText bs enc decode_errors with
        | .ok s => (.ok s, l)
        | .error e => (.error e, l)
    | .ints _ =>
        (.error (mkEwmhError "Not a text property: %s" [.prop prop]), l)

/-- `Window.set_text_property(name, text, property_type="UTF8_STRING",
encoding=None, encode_errors="strict", mode=Mode.REPLACE, onerror=None,
immediate=True)`.  When the resolved type atom is not an `ENCODINGS` key
the source raises `EwmhError("%r is not a text property type, must be one
of %: %s", type_atom, [self.Atom(_) for _ in self.ENCODINGS])`: the
argument list is still built first (one reverse name lookup per
`ENCODINGS` key, in dict insertion order STRING then UTF8_STRING), and the
interpolation then fails on the malformed "%:" specifier, so a
`ValueError`, not the intended `EwmhError`, reaches the caller. -/
def Window.set_text_property (w : Window) (d : XDisplay) (name : AtomLike)
    (text : String) (property_type : AtomLike) (encoding : Option String)
    (encode_errors : String) (mode : Mode) (immediate : Bool) :
    Except PyError Unit × List Request :=
  match Atom.new property_type d false with
  | (.error e, l) => (.error e, l)
  | (.ok typeAtom, l1) =>
    if !(w.encodingsContains typeAtom.value) then
      match Atom.new (.int 31) d false with
      | (.error e, l2) => (.error e, l1 ++ l2)
      | (.ok stringAtom, l2) =>
        match Atom.new (.int w.utf8Atom) d false with
        | (.error e, l3) => (.error e, l1 ++ l2 ++ l3)
        | (.ok utf8A, l3) =>
            (.error (mkEwmhError
              "%r is not a text property type, must be one of %: %s"
              [.atom typeAtom, .atomList [stringAtom, utf8A]]),
             l1 ++ l2 ++ l3)
    else
      let enc := match encoding with
        | none => (w.encodingsGet typeAtom.value).getD ""
        | some e => e
      match encodeText text enc encode_errors with
      | .error e => (.error e, l1)
      | .ok bs =>
        match Window.set_property w d name (.bytes bs) (.atom typeAtom)
            .CHAR mode immediate with
        | (r, l2) => (r, l1 ++ l2)

/-- `Window.send_message(name, *data, window_id=Xlib.X.NONE)`: at most 5
data items, then the client message event is built (name resolved with
`only_if_exists=True`, data zero-padded to 5 slots of 32 bits) and sent to
the root window with mask SubstructureRedirectMask | SubstructureNotifyMask
(0x180000) and propagate false, followed by a flush. -/
def Window.send_message (w : Window) (d : XDisplay) (name : String)
    (data : List Int) (window_id : Nat) :
    Except PyError Unit × List Request :=
  if data.length > 5 then
    (.error (mkEwmhError
      "Client Message data must have at most 5 items, got %s: %s"
      [.nat data.length, .intList data]), [])
  else
    let clientType := getAtom d name true
    let padded := (data ++ List.replicate 5 0).take 5
    (.ok (), [.internAtom name,
              .sendEvent w.rootHandle window_id clientType padded 1572864 false,
              .flush])

/-! Concrete fixtures used by witnesses and counterexamples: a display with
a few interned atoms (including the predefined STRING = 31) and one window
(id 100) carrying a format-32 property under atom 7 and an *empty*
format-32 property under atom 9. -/

/-- Example display state, identity token 1. -/
def dEx : XDisplay :=
  ⟨1,
   [("FOO", 5), ("PROP", 7), ("TYPE", 6), ("UTF8_STRING", 300),
    ("ATOM", 4), ("EMPTYP", 9)],
   [(4, "ATOM"), (5, "FOO"), (6, "TYPE"), (7, "PROP"), (9, "EMPTYP"),
    (31, "STRING"), (300, "UTF8_STRING")],
   [(100, [(7, ⟨6, 32, .ints [11, 22]⟩), (9, ⟨6, 32, .ints []⟩)])]⟩

/-- A second, distinct connection (identity token 2) that happens to intern
"FOO" at the same numeric id. -/
def dEx2 : XDisplay := ⟨2, [("FOO", 5)], [(5, "FOO")], []⟩

/-- Example window on `dEx`: resource id 100, owned by the root object with
identity token 10 whose root window is 50. -/
def wEx : Window := ⟨100, 10, 50, 1, 0, ":0", 300⟩

/-- Root context with identity token 10, over `dEx`. -/
def rootA : RootCtx := ⟨10, dEx, 0, ":0", 50⟩

/-- A distinct root context (identity token 11) over the same display. -/
def rootB : RootCtx := ⟨11, dEx, 0, ":0", 50⟩

/-- C1: when the reply indicates the window has no such property,
`get_property` returns normally with the sentinel `Property`: type is the
plain `Xlib.X.NONE` (0), format 0, payload the empty byte string. -/
theorem get_property_missing_ok (w : Window) (d : XDisplay) (name : AtomLike)
    (etype hint : Nat) (a : Atom) (l : List Request)
    (hres : Atom.new name d false = (.ok a, l))
    (habs : lookupProp d w.handleId a.value = none) :
    Window.get_property w d name etype hint =
      (.ok ⟨name.toStr, w.handleId, .xatom 0, 0, .bytes []⟩,
       l ++ [.getProperty w.handleId a.value etype]) := by
  simp only [Window.get_property, hres, getFullProperty, habs]

theorem get_property_missing_ok_witness :
    Window.get_property wEx dEx (.str "FOO") 0 256 =
      (.ok ⟨"FOO", 100, .xatom 0, 0, .bytes []⟩,
       [.internAtom "FOO", .getProperty 100 5 0]) :=
  get_property_missing_ok wEx dEx (.str "FOO") 0 256 ⟨5, 1, "FOO"⟩
    [.internAtom "FOO"] rfl rfl

/-- C10: `get_property` with a string name the server has never interned
raises `EwmhError` during atom resolution (the only request issued is the
intern lookup; no get-property request is made and no sentinel `Property`
is returned). -/
theorem get_property_unknown_atom (w : Window) (d : XDisplay) (s : String)
    (etype hint : Nat) (h : lookupAtom d s = none) :
    Window.get_property w d (.str s) etype hint =
      (.error (.ewmh "Atom does not exist: %s" [.nat 0]), [.internAtom s]) := by
  simp only [Window.get_property, Atom.new, getAtom, h, Bool.not_false]
  simp [mkEwmhError, countSpecs]

theorem get_property_unknown_atom_witness :
    Window.get_property wEx dEx (.str "NOPE") 0 256 =
      (.error (.ewmh "Atom does not exist: %s" [.nat 0]),
       [.internAtom "NOPE"]) :=
  get_property_unknown_atom wEx dEx "NOPE" 0 256 rfl

/-- C6: `send_message` with more than 5 data values raises `EwmhError`
(reporting the count and the data) before the event is built: no request
at all is issued. -/
theorem send_message_too_many (w : Window) (d : XDisplay) (name : String)
    (data : List Int) (wid : Nat) (h : data.length > 5) :
    Window.send_message w d name data wid =
      (.error (.ewmh
        "Client Message data must have at most 5 items, got %s: %s"
        [.nat data.length, .intList data]), []) := by
  simp only [Window.send_message, if_pos h]
  simp [mkEwmhError, countSpecs]

theorem send_message_too_many_witness :
    Window.send_message wEx dEx "_NET_WM_STATE" [1, 2, 3, 4, 5, 6] 0 =
      (.error (.ewmh
        "Client Message data must have at most 5 items, got %s: %s"
        [.nat 6, .intList [1, 2, 3, 4, 5, 6]]), []) :=
  send_message_too_many wEx dEx "_NET_WM_STATE" [1, 2, 3, 4, 5, 6] 0
    (by decide)

/-- C3 counterexample: non-byte data written with format CHAR(8) is *not*
rejected: the call succeeds and the change-property request (plus the
flush) is issued, refuting the "vice versa" half of the claim. -/
theorem set_property_char_nonbytes_cex :
    Window.set_property wEx dEx (.str "PROP") (.ints [1, 2]) (.str "TYPE")
        .CHAR .REPLACE true =
      (.ok (), [.internAtom "PROP", .internAtom "TYPE",
                .changeProperty 100 7 6 8 (.ints [1, 2]) 0, .flush]) := rfl

/-- C3 amended: when the data is a raw byte sequence and the format is not
CHAR(8), `set_property` fails with the format-mismatch `EwmhError` before
any request is issued (the request log is empty); the converse direction
(non-byte data with format CHAR) is not checked. -/
theorem set_property_format_mismatch (w : Window) (d : XDisplay)
    (name ptype : AtomLike) (bs : List Nat) (f : Format) (mode : Mode)
    (imm : Bool) (h : f ≠ Format.CHAR) :
    Window.set_property w d name (.bytes bs) ptype f mode imm =
      (.error (.ewmh "Format mismatch for bytes data: expected %s, got %s"
        [.fmt .CHAR, .fmt f]), []) := by
  simp only [Window.set_property, PropValue.isBytes, Bool.true_and]
  rw [if_pos (by simp [bne_iff_ne, h])]
  simp [mkEwmhError, countSpecs]

theorem set_property_format_mismatch_witness :
    Window.set_property wEx dEx (.str "PROP") (.bytes [1]) (.str "TYPE")
        .INT .REPLACE true =
      (.error (.ewmh "Format mismatch for bytes data: expected %s, got %s"
        [.fmt .CHAR, .fmt .INT]), []) :=
  set_property_format_mismatch wEx dEx (.str "PROP") (.str "TYPE") [1]
    .INT .REPLACE true (by decide)

/-- C4 counterexample: constructing an `Atom` from the numeric id 5 on the
example display issues the reverse name lookup request *during
construction* (the construction log is exactly one get-atom-name request),
and the subsequent `.name` access performs no lookup at all: the claim
that construction performs no name lookup and that the lookup happens
lazily on first `.name` access is false. -/
theorem atom_new_eager_lookup_cex :
    Atom.new (.int 5) dEx false = (.ok ⟨5, 1, "FOO"⟩, [.getAtomName 5]) ∧
    Atom.nameProp ⟨5, 1, "FOO"⟩ dEx = (.ok "FOO", []) := ⟨rfl, rfl⟩

/-- C4 amended: construction from a numeric id stores the id immediately
but performs the reverse name lookup eagerly, at construction time, and
caches the result; `.name` then returns the cached name with no further
request (a lookup at `.name` time would happen only if the cached name
were the empty string). -/
theorem atom_new_int_eager (d : XDisplay) (n : Nat) (s : String)
    (h : lookupName d n = some s) (hne : s ≠ "") :
    Atom.new (.int n) d false = (.ok ⟨n, d.did, s⟩, [.getAtomName n]) ∧
    Atom.nameProp ⟨n, d.did, s⟩ d = (.ok s, []) := by
  constructor
  · simp only [Atom.new, h]
  · simp only [Atom.nameProp]
    rw [if_neg (by simp [hne])]

theorem atom_new_int_eager_witness :
    Atom.new (.int 7) dEx false = (.ok ⟨7, 1, "PROP"⟩, [.getAtomName 7]) ∧
    Atom.nameProp ⟨7, 1, "PROP"⟩ dEx = (.ok "PROP", []) :=
  atom_new_int_eager dEx 7 "PROP" rfl (by decide)

/-- C5: `set_text_property` with a property type outside the ENCODINGS
mapping does fail and issues no write, but not with the intended
`EwmhError`: the error message template contains the malformed specifier
"%:" so `str(msg) % args` inside `EwmhError.__init__` raises `ValueError`.
Evaluated at a concrete input: the type "ATOM" (atom 4) is rejected, the
log holds only the atom lookups (no change-property request), and the
surfaced error is the `ValueError`. -/
theorem set_text_property_unsupported_type_bug :
    Window.set_text_property wEx dEx (.str "PROP") "hi" (.str "ATOM") none
        "strict" .REPLACE true =
      (.error (.valueError
        "%r is not a text property type, must be one of %: %s"),
       [.internAtom "ATOM", .getAtomName 31, .getAtomName 300]) := rfl

/-- C9 counterexample: two `Window` values with the same id under the same
root compare equal, but there is no hash at all: `Window` overrides
`__eq__` without `__hash__`, so Python sets `__hash__` to `None` and
hashing any `Window` raises `TypeError` — the "hash equal" half of the
claim fails. -/
theorem window_hash_cex :
    Window.eq ⟨100, 10, 50, 1, 0, ":0", 300⟩ ⟨100, 10, 50, 1, 0, ":0", 300⟩
        = true ∧
    Window.hashMethod = none := ⟨rfl, rfl⟩

/-- C9 amended: `Window` equality is determined by the pair (numeric
resource id, root-object identity): two windows built from the same id
under the same root are equal, and the same id under two distinct roots is
not equal; `Window` defines no `__hash__` (instances are unhashable), so
no hashing guarantee holds. -/
theorem window_eq_semantics (wid : Nat) (r r2 : RootCtx)
    (w1 w2 w3 : Window) (l1 l2 l3 : List Request)
    (h1 : Window.init wid r = (.ok w1, l1))
    (h2 : Window.init wid r = (.ok w2, l2))
    (h3 : Window.init wid r2 = (.ok w3, l3))
    (hr : r.rootId ≠ r2.rootId) :
    Window.eq w1 w2 = true ∧ Window.eq w1 w3 = false ∧
    Window.hashMethod = none := by
  simp only [Window.init] at h1 h2 h3
  split at h1
  · simp_all
  · split at h2
    · simp_all
    · split at h3
      · simp_all
      · simp only [Prod.mk.injEq, Except.ok.injEq] at h1 h2 h3
        refine ⟨?_, ?_, rfl⟩
        · simp [Window.eq, ← h1.1, ← h2.1]
        · simp [Window.eq, ← h1.1, ← h3.1, hr]

theorem window_eq_semantics_witness :
    Window.eq ⟨100, 10, 50, 1, 0, ":0", 300⟩ ⟨100, 10, 50, 1, 0, ":0", 300⟩
        = true ∧
    Window.eq ⟨100, 10, 50, 1, 0, ":0", 300⟩ ⟨100, 11, 50, 1, 0, ":0", 300⟩
        = false ∧
    Window.hashMethod = none :=
  window_eq_semantics 100 rootA rootB
    ⟨100, 10, 50, 1, 0, ":0", 300⟩ ⟨100, 10, 50, 1, 0, ":0", 300⟩
    ⟨100, 11, 50, 1, 0, ":0", 300⟩
    [.internAtom "UTF8_STRING"] [.internAtom "UTF8_STRING"]
    [.internAtom "UTF8_STRING"] rfl rfl rfl (by decide)

/-- C2: when the caller supplies a concrete expected type (not the
AnyPropertyType sentinel 0) and the live property's type differs,
`get_property` fails with the type-mismatch `EwmhError`, whose arguments
report the expected type atom, the actual type atom, and the full
`Property` built from the reply (which, per GetProperty semantics on a
type mismatch, carries the actual type and format and an empty payload). -/
theorem get_property_type_mismatch (w : Window) (d : XDisplay)
    (name : AtomLike) (etype hint : Nat) (a : Atom) (l : List Request)
    (wp : WinProp) (f : Format) (tn en : String)
    (hres : Atom.new name d false = (.ok a, l))
    (hprop : lookupProp d w.handleId a.value = some wp)
    (hfmt : Format.ofValue wp.format = some f)
    (htn : lookupName d wp.ptype = some tn)
    (hen : lookupName d etype = some en)
    (h0 : etype ≠ 0) (hne : etype ≠ wp.ptype) :
    (Window.get_property w d name etype hint).1 =
      .error (.ewmh "Property type mismatch, expected %s and got %s: %s"
        [.atom ⟨etype, d.did, en⟩, .atom ⟨wp.ptype, d.did, tn⟩,
         .prop ⟨name.toStr, w.handleId, .atom ⟨wp.ptype, d.did, tn⟩,
                wp.format, emptyValue wp.format⟩]) := by
  simp only [Window.get_property, hres, getFullProperty, hprop]
  rw [if_pos (by simp [bne_iff_ne, h0, hne])]
  simp only [Atom.new, htn, hfmt, hen]
  rw [if_pos (by simp [h0, hne])]
  simp [mkEwmhError, countSpecs]

theorem get_property_type_mismatch_witness :
    (Window.get_property wEx dEx (.str "PROP") 4 256).1 =
      .error (.ewmh "Property type mismatch, expected %s and got %s: %s"
        [.atom ⟨4, 1, "ATOM"⟩, .atom ⟨6, 1, "TYPE"⟩,
         .prop ⟨"PROP", 100, .atom ⟨6, 1, "TYPE"⟩, 32, emptyValue 32⟩]) :=
  get_property_type_mismatch wEx dEx (.str "PROP") 4 256 ⟨7, 1, "PROP"⟩
    [.internAtom "PROP"] ⟨6, 32, .ints [11, 22]⟩ .INT "TYPE" "ATOM"
    rfl rfl rfl rfl rfl (by decide) (by decide)

/-- C7 counterexample: an *existing* property with format 32 and an empty
integer payload does not take the empty-string shortcut (`text == b""` is
false for an empty array), so `get_text_property` raises the
not-a-text-property `EwmhError` instead of returning the empty string —
refuting "returns the empty string ... regardless of the property's
format". -/
theorem get_text_property_empty_ints_cex :
    Window.get_text_property wEx dEx (.str "EMPTYP") 0 none "strict" =
      (.error (.ewmh "Not a text property: %s"
        [.prop ⟨"EMPTYP", 100, .atom ⟨6, 1, "TYPE"⟩, 32, .ints []⟩]),
       [.internAtom "EMPTYP", .getProperty 100 9 0, .getAtomName 6]) := rfl

/-- C7 amended: whenever the fetched `Property` has an empty *byte string*
payload — which includes the sentinel returned for an absent property —
`get_text_property` returns the empty string without raising; an empty
payload of a non-byte format instead raises the not-a-text-property
error. -/
theorem get_text_property_empty_bytes (w : Window) (d : XDisplay)
    (name : AtomLike) (etype : Nat) (encoding : Option String)
    (errs : String) (p : Property) (l : List Request)
    (h : Window.get_property w d name etype 256 = (.ok p, l))
    (hv : p.value = .bytes []) :
    Window.get_text_property w d name etype encoding errs = (.ok "", l) := by
  simp only [Window.get_text_property, h, hv]

theorem get_text_property_empty_bytes_witness :
    Window.get_text_property wEx dEx (.str "FOO") 0 none "strict" =
      (.ok "", [.internAtom "FOO", .getProperty 100 5 0]) :=
  get_text_property_empty_bytes wEx dEx (.str "FOO") 0 none "strict"
    ⟨"FOO", 100, .xatom 0, 0, .bytes []⟩
    [.internAtom "FOO", .getProperty 100 5 0] rfl rfl

/-- C8: `Atom` equality semantics.  Against another `Atom` it holds exactly
when both the numeric value and the owning display identity match;
resolving a name twice on one connection gives equal atoms, while the same
name resolved on two distinct connections gives unequal atoms even when
the numeric ids coincide; equality against a plain int compares only the
numeric value; equality against a string compares the resolved name (from
the cache, with no request). -/
theorem atom_equality_semantics (a b a1 a2 : Atom) (d1 d2 : XDisplay)
    (n : String) (l1 l2 : List Request) (k : Nat) (s : String)
    (h1 : Atom.new (.str n) d1 false = (.ok a1, l1))
    (h2 : Atom.new (.str n) d2 false = (.ok a2, l2))
    (hd : d1.did ≠ d2.did) (hname : a.name ≠ "") :
    (Atom.eqAtom a b = true ↔ (a.value = b.value ∧ a.displayId = b.displayId)) ∧
    Atom.eqAtom a1 a1 = true ∧
    Atom.eqAtom a1 a2 = false ∧
    (Atom.eqInt a k = true ↔ a.value = k) ∧
    Atom.eqStr a d1 s = (.ok (s == a.name), []) := by
  simp only [Atom.new] at h1 h2
  split at h1
  · simp_all
  · split at h2
    · simp_all
    · simp only [Prod.mk.injEq, Except.ok.injEq] at h1 h2
      refine ⟨by simp [Atom.eqAtom], by simp [Atom.eqAtom], ?_, by
        simp [Atom.eqInt], ?_⟩
      · have e1 : a1.displayId = d1.did := by rw [← h1.1]
        have e2 : a2.displayId = d2.did := by rw [← h2.1]
        simp [Atom.eqAtom, e1, e2, hd]
      · simp only [Atom.eqStr, Atom.nameProp]
        rw [if_neg (by simp [hname])]

theorem atom_equality_semantics_witness :
    (Atom.eqAtom ⟨5, 1, "FOO"⟩ ⟨5, 2, "FOO"⟩ = true ↔
      ((5 : Nat) = 5 ∧ (1 : Nat) = 2)) ∧
    Atom.eqAtom ⟨5, 1, "FOO"⟩ ⟨5, 1, "FOO"⟩ = true ∧
    Atom.eqAtom ⟨5, 1, "FOO"⟩ ⟨5, 2, "FOO"⟩ = false ∧
    (Atom.eqInt ⟨5, 1, "FOO"⟩ 5 = true ↔ (5 : Nat) = 5) ∧
    Atom.eqStr ⟨5, 1, "FOO"⟩ dEx "FOO" = (.ok ("FOO" == "FOO"), []) :=
  atom_equality_semantics ⟨5, 1, "FOO"⟩ ⟨5, 2, "FOO"⟩ ⟨5, 1, "FOO"⟩
    ⟨5, 2, "FOO"⟩ dEx dEx2 "FOO" [.internAtom "FOO"] [.internAtom "FOO"]
    5 "FOO" rfl rfl (by decide) (by decide)

end Ewmh
